import Mathlib

/-!
Verification of the support-flow payment-tool relay and dashboard badge logic.

The development shallowly embeds `src/app/api/stripe/call-stripe-tool/route.ts`
(the `POST` dispatcher, `handleRefundRequest` and `handleCaptureRequest`) and the
`getStatusBadge` helpers of the two dashboard pages. External collaborators
(the payments SDK's charge/customer/refund/capture primitives and the
`findCustomerByIdentifier` / `findPaymentByIdentifier` lookups) are modelled as
an explicit environment of pure functions, and every handler returns, next to
its HTTP response, the trace of capability calls it made, so that statements
such as "the refund capability is never invoked" are equalities on traces.
-/

namespace SupportFlow

/-- JS truthiness of a possibly-absent string value: `undefined`/`null` and the
empty string are falsy, every other string is truthy. -/
def truthy : Option String → Bool
  | none => false
  | some s => !(s == "")

/-- JS `a || b` on two possibly-absent string values: yields `a` when truthy,
otherwise `b` (which may itself be falsy). -/
def jsOrOpt (a b : Option String) : Option String :=
  if truthy a then a else b

/-- JS `x || d` where `d` is a (truthy) string default, as in
`reason || "requested_by_customer"`. -/
def strOr (x : Option String) (d : String) : String :=
  match x with
  | none => d
  | some s => if s == "" then d else s

/-- Whether `pat` occurs as a contiguous run inside `l`. -/
def listContainsSeq (pat : List Char) : List Char → Bool
  | [] => pat.isEmpty
  | c :: cs => pat.isPrefixOf (c :: cs) || listContainsSeq pat cs

/-- JS `s.includes(pat)`: substring containment. -/
def strIncludes (s pat : String) : Bool :=
  listContainsSeq pat.toList s.toList

/-- Value of a decimal digit string, most significant first. -/
def natFromDigits (cs : List Char) : Nat :=
  cs.foldl (fun n c => n * 10 + (c.toNat - 48)) 0

/-- An exact decimal number `mantissa / 10 ^ exponent`. JSON numerals and the
decimal strings the route coerces are decimal literals, so this represents the
numbers flowing through the handlers exactly. -/
structure JsNumber where
  mantissa : Int
  exponent : Nat
deriving DecidableEq, Repr

/-- Models the decimal-literal fragment of the JS `Number()` builtin (an
external runtime primitive): optional sign, integer digits, optional fractional
digits. `none` stands for `NaN`; the empty string converts to `0`. Exponent,
hexadecimal and whitespace forms are outside the fragment exercised here. -/
def jsParseNumber (s : String) : Option JsNumber :=
  let cs := s.toList
  if cs.isEmpty then some { mantissa := 0, exponent := 0 }
  else
    let negative := cs.head? == some '-'
    let signVal : Int := if negative then -1 else 1
    let body := if cs.head? == some '-' || cs.head? == some '+' then cs.tail else cs
    let intPart := body.takeWhile (fun c => c != '.')
    let rest := body.dropWhile (fun c => c != '.')
    if intPart.all Char.isDigit then
      match rest with
      | [] =>
          if intPart.isEmpty then none
          else some { mantissa := signVal * Int.ofNat (natFromDigits intPart), exponent := 0 }
      | _ :: frac =>
          if frac.all Char.isDigit && !(intPart.isEmpty && frac.isEmpty) then
            some { mantissa := signVal * Int.ofNat
                     (natFromDigits intPart * 10 ^ frac.length + natFromDigits frac)
                   exponent := frac.length }
          else none
    else none

/-- JS `Math.round`: round half toward positive infinity, i.e. the floor of
`x + 1/2`, computed exactly on the decimal representation as
`(2 * mantissa + 10 ^ exponent) / (2 * 10 ^ exponent)` rounded toward minus
infinity. -/
def jsRound (x : JsNumber) : Int :=
  Int.fdiv (2 * x.mantissa + Int.ofNat (10 ^ x.exponent)) (2 * Int.ofNat (10 ^ x.exponent))

/-- A JSON `amount` value as the route receives it: a number or a string. -/
inductive JsAmount where
  | num (x : JsNumber)
  | str (s : String)
deriving DecidableEq, Repr

/-- A Stripe charge reference as stored in `latest_charge`: either a bare id
string or an expanded charge object (of which only `.id` is ever read). -/
inductive ChargeRef where
  | bare (id : String)
  | expanded (id : String)
deriving DecidableEq, Repr

/-- `typeof latestCharge === "string" ? latestCharge : latestCharge.id`. -/
def chargeRefId : ChargeRef → String
  | .bare s => s
  | .expanded s => s

/-- JS truthiness of a `latest_charge` field: `null` and a bare empty string
are falsy; an expanded object is always truthy. -/
def latestChargeTruthy : Option ChargeRef → Bool
  | none => false
  | some (.bare s) => !(s == "")
  | some (.expanded _) => true

/-- A Stripe payment intent, as read by the route. -/
structure PaymentIntent where
  id : String
  latest_charge : Option ChargeRef
deriving DecidableEq, Repr

/-- A Stripe charge, as read by the route. -/
structure Charge where
  id : String
deriving DecidableEq, Repr

/-- A Stripe customer, as read by the route. -/
structure Customer where
  id : String
deriving DecidableEq, Repr

/-- The record returned by the external `findPaymentByIdentifier` lookup:
an optional direct charge and an optional payment intent. -/
structure PaymentInfo where
  charge : Option Charge
  paymentIntent : Option PaymentIntent
deriving DecidableEq, Repr

/-- A refund object returned by the refund-creation capability. -/
structure RefundObj where
  id : String
deriving DecidableEq, Repr

/-- The argument object passed to `stripe.refunds.create`. -/
structure RefundCreateParams where
  charge : String
  amount : Option JsAmount
  reason : String
  metadata : List (String × String)
deriving DecidableEq, Repr

/-- The `parameters` object of a tool invocation: every field the route reads,
each possibly absent. -/
structure Params where
  charge_id : Option String := none
  payment_intent_id : Option String := none
  customerIdentifier : Option String := none
  orderIdentifier : Option String := none
  paymentIntentId : Option String := none
  intent_id : Option String := none
  id : Option String := none
  amount : Option JsAmount := none
  reason : Option String := none
  metadata : Option (List (String × String)) := none
deriving DecidableEq, Repr

/-- One call to an external capability, recorded in order of invocation. -/
inductive StripeCall where
  | refundsCreate (args : RefundCreateParams)
  | retrievePaymentIntent (id : String)
  | chargesList (customer : String) (limit : Nat)
  | findCustomerByIdentifier (identifier : String)
  | findPaymentByIdentifier (identifier : String)
  | capturePaymentIntent (id : String) (amount_to_capture : Option Int)
  | handleToolCall (name : String)
deriving DecidableEq, Repr

/-- The payload placed under `result` in a JSON response body. -/
inductive Payload where
  | refundObj (r : RefundObj)
  | intent (p : PaymentIntent)
  | toolContent (s : String)
deriving DecidableEq, Repr

/-- The JSON body of a response: `{ result }`, `{ result, message }`,
or `{ error }`. -/
inductive RespBody where
  | result (p : Payload)
  | resultWithMessage (p : Payload) (message : String)
  | error (msg : String)
deriving DecidableEq, Repr

/-- An HTTP response as produced by `NextResponse.json`. -/
structure Response where
  status : Nat
  body : RespBody
  headers : List (String × String)
deriving DecidableEq, Repr

/-- The `corsHeaders` object declared at the top of the route (and re-declared
inside each handler with the same value). -/
def corsHeaders : List (String × String) :=
  [("Access-Control-Allow-Origin", "*"),
   ("Access-Control-Allow-Methods", "POST, OPTIONS"),
   ("Access-Control-Allow-Headers", "Content-Type, Authorization")]

/-- The external world: the payments SDK's primitives, the two bespoke lookup
collaborators, the SDK tool catalog and its generic call handler. All are
black-box capabilities; the route is verified for every such environment. -/
structure StripeEnv where
  retrievePaymentIntent : String → PaymentIntent
  refundsCreate : RefundCreateParams → RefundObj
  chargesList : String → Nat → List Charge
  findCustomerByIdentifier : String → Option Customer
  findPaymentByIdentifier : String → Option PaymentInfo
  capturePaymentIntent : String → Option Int → PaymentIntent
  getTools : List String
  handleToolCall : String → Params → String

/-- The argument object repeatedly passed to `stripe.refunds.create` in
`handleRefundRequest`: the resolved charge together with the caller's raw
`amount`, `reason || "requested_by_customer"` and `metadata || {}`. -/
def refundArgs (p : Params) (charge : String) : RefundCreateParams :=
  { charge := charge
    amount := p.amount
    reason := strOr p.reason "requested_by_customer"
    metadata := p.metadata.getD [] }

/-- Lines 207-212 of the route: `paymentInfo.charge?.id ||
(paymentInfo.paymentIntent?.latest_charge ? <extract id> : null)`, as the JS
value later tested for truthiness. -/
def paymentInfoChargeId (info : PaymentInfo) : Option String :=
  let primary : Option String := info.charge.map Charge.id
  if truthy primary then primary
  else
    match info.paymentIntent with
    | none => none
    | some intent =>
        if latestChargeTruthy intent.latest_charge then
          some (chargeRefId (intent.latest_charge.getD (.bare "")))
        else none

/-- The line-235 fallback response of `handleRefundRequest`. -/
def refundInvalidInputResponse : Response :=
  { status := 400
    body := .error "Please provide either charge_id, payment_intent_id, customerIdentifier, or orderIdentifier"
    headers := corsHeaders }

/-- Shallow embedding of `handleRefundRequest` (route.ts lines 112-246):
charge id first, then payment-intent id, then the order/customer block, else
the invalid-input fallback. Returns the response and the ordered trace of
capability calls. -/
def handleRefundRequest (env : StripeEnv) (p : Params) : Response × List StripeCall :=
  if truthy p.charge_id then
    let args := refundArgs p (p.charge_id.getD "")
    let refund := env.refundsCreate args
    ({ status := 200, body := .result (.refundObj refund), headers := corsHeaders },
     [.refundsCreate args])
  else if truthy p.payment_intent_id then
    let piId := p.payment_intent_id.getD ""
    let paymentIntent := env.retrievePaymentIntent piId
    if !(latestChargeTruthy paymentIntent.latest_charge) then
      ({ status := 400, body := .error "Payment intent has no charge to refund", headers := corsHeaders },
       [.retrievePaymentIntent piId])
    else
      let chargeId := chargeRefId (paymentIntent.latest_charge.getD (.bare ""))
      let args := refundArgs p chargeId
      let refund := env.refundsCreate args
      ({ status := 200, body := .result (.refundObj refund), headers := corsHeaders },
       [.retrievePaymentIntent piId, .refundsCreate args])
  else if truthy p.customerIdentifier || truthy p.orderIdentifier then
    let orderTrace : List StripeCall :=
      if truthy p.orderIdentifier then [.findPaymentByIdentifier (p.orderIdentifier.getD "")] else []
    let paymentInfo : Option PaymentInfo :=
      if truthy p.orderIdentifier then env.findPaymentByIdentifier (p.orderIdentifier.getD "") else none
    if paymentInfo.isNone && truthy p.customerIdentifier then
      let custId := p.customerIdentifier.getD ""
      match env.findCustomerByIdentifier custId with
      | none =>
          ({ status := 404, body := .error ("Customer not found: " ++ custId), headers := corsHeaders },
           orderTrace ++ [.findCustomerByIdentifier custId])
      | some customer =>
          match env.chargesList customer.id 10 with
          | [] =>
              ({ status := 404, body := .error "No charges found for this customer", headers := corsHeaders },
               orderTrace ++ [.findCustomerByIdentifier custId, .chargesList customer.id 10])
          | latestCharge :: _ =>
              let args := refundArgs p latestCharge.id
              let refund := env.refundsCreate args
              ({ status := 200
                 body := .resultWithMessage (.refundObj refund)
                   ("Refund processed for customer " ++ customer.id ++ " on charge " ++ latestCharge.id)
                 headers := corsHeaders },
               orderTrace ++ [.findCustomerByIdentifier custId, .chargesList customer.id 10, .refundsCreate args])
    else
      match paymentInfo with
      | some info =>
          let chargeId := paymentInfoChargeId info
          if !(truthy chargeId) then
            ({ status := 400, body := .error "Could not find charge to refund", headers := corsHeaders },
             orderTrace)
          else
            let args := refundArgs p (chargeId.getD "")
            let refund := env.refundsCreate args
            ({ status := 200
               body := .resultWithMessage (.refundObj refund)
                 ("Refund processed for order " ++ strOr p.orderIdentifier "N/A")
               headers := corsHeaders },
             orderTrace ++ [.refundsCreate args])
      | none => (refundInvalidInputResponse, orderTrace)
  else (refundInvalidInputResponse, [])

/-- Lines 272-282 of the route: coerce `parameters.amount` (number, or truthy
string via `Number()`), then set `amount_to_capture = Math.round(amount)` only
when the coerced amount is truthy (nonzero) and not `NaN`. -/
def amountToCapture (amount : Option JsAmount) : Option Int :=
  match amount with
  | none => none
  | some (.num x) => if x.mantissa == 0 then none else some (jsRound x)
  | some (.str s) =>
      if s == "" then none
      else
        match jsParseNumber s with
        | none => none
        | some x => if x.mantissa == 0 then none else some (jsRound x)

/-- Shallow embedding of `handleCaptureRequest` (route.ts lines 251-293):
the four-way alias chain for the payment-intent id, the invalid-input guard,
and the capture call with its optional rounded amount. -/
def handleCaptureRequest (env : StripeEnv) (p : Params) : Response × List StripeCall :=
  let paymentIntentId :=
    jsOrOpt p.payment_intent_id (jsOrOpt p.paymentIntentId (jsOrOpt p.intent_id p.id))
  if !(truthy paymentIntentId) then
    ({ status := 400, body := .error "payment_intent_id is required to capture a payment", headers := corsHeaders },
     [])
  else
    let amt := amountToCapture p.amount
    let captured := env.capturePaymentIntent (paymentIntentId.getD "") amt
    ({ status := 200, body := .result (.intent captured), headers := corsHeaders },
     [.capturePaymentIntent (paymentIntentId.getD "") amt])

/-- The refund alias set special-cased at line 58 of the route. -/
def isRefundToolName (name : String) : Bool :=
  name == "refunds_create" || name == "create_refund" || name == "stripe_refunds_create"

/-- The capture alias set special-cased at line 61 of the route, including the
`includes("capture_payment_intent")` clause. -/
def isCaptureToolName (name : String) : Bool :=
  name == "paymentIntents_capture" || name == "capture_payment_intent" ||
  name == "stripe_paymentIntents_capture" || name == "capturePaymentIntent" ||
  name == "stripe_capture_payment_intent" || strIncludes name "capture_payment_intent"

/-- Shallow embedding of the `POST` handler (route.ts lines 16-107): secret-key
and `toolName` guards, refund/capture alias dispatch, catalog lookup, the
refund/capture substring fallback, and the unknown-tool 404 (which the source
builds without attaching `corsHeaders`). -/
def POST (env : StripeEnv) (secretKey : Option String) (toolName : Option String)
    (p : Params) : Response × List StripeCall :=
  if !(truthy secretKey) then
    ({ status := 500, body := .error "STRIPE_SECRET_KEY not configured", headers := corsHeaders }, [])
  else if !(truthy toolName) then
    ({ status := 400, body := .error "toolName is required", headers := corsHeaders }, [])
  else
    let name := toolName.getD ""
    if isRefundToolName name then handleRefundRequest env p
    else if isCaptureToolName name then handleCaptureRequest env p
    else if name ∈ env.getTools then
      ({ status := 200, body := .result (.toolContent (env.handleToolCall name p)), headers := corsHeaders },
       [.handleToolCall name])
    else if strIncludes name "refund" then handleRefundRequest env p
    else if strIncludes name "capture" then handleCaptureRequest env p
    else
      ({ status := 404, body := .error ("Tool " ++ name ++ " not found"), headers := [] }, [])

/-- Replace the first occurrence of `target` in a character list, as JS
`s.replace("_", " ")` replaces only the first match of a string pattern. -/
def replaceFirstChar (target repl : Char) : List Char → List Char
  | [] => []
  | c :: cs => if c == target then repl :: cs else c :: replaceFirstChar target repl cs

/-- JS `status.replace("_", " ")`: first underscore becomes a space. -/
def jsReplaceUnderscore (s : String) : String :=
  String.mk (replaceFirstChar '_' ' ' s.toList)

/-- The rendered badge: the full `className` of the span and its text label. -/
structure StatusBadge where
  className : String
  label : String
deriving DecidableEq, Repr

/-- JS object property lookup `obj[key]` on a string-keyed literal object. -/
def jsLookup (obj : List (String × String)) (key : String) : Option String :=
  (obj.find? (fun kv => kv.1 == key)).map Prod.snd

/-- Badge construction shared by both pages: the literal class prefix of the
span, then `statusColors[status] || statusColors.pending`, and the
underscore-to-space label. -/
def mkStatusBadge (colors : List (String × String)) (pendingColor : String)
    (status : String) : StatusBadge :=
  { className := "inline-flex items-center rounded-full px-2 py-1 text-xs font-medium " ++
      (match jsLookup colors status with
       | some c => if c == "" then pendingColor else c
       | none => pendingColor)
    label := jsReplaceUnderscore status }

namespace OutboundList

/-- The `statusColors` object of `getStatusBadge` in the batch-call list page
(`src/app/(dashboard)/outbound/page.tsx` lines 106-113). -/
def statusColors : List (String × String) :=
  [("pending", "bg-yellow-100 text-yellow-800 dark:bg-yellow-900/20 dark:text-yellow-300"),
   ("in_progress", "bg-blue-100 text-blue-800 dark:bg-blue-900/20 dark:text-blue-300"),
   ("completed", "bg-green-100 text-green-800 dark:bg-green-900/20 dark:text-green-300"),
   ("failed", "bg-red-100 text-red-800 dark:bg-red-900/20 dark:text-red-300"),
   ("cancelled", "bg-gray-100 text-gray-800 dark:bg-gray-900/20 dark:text-gray-300")]

/-- `statusColors.pending` of the list page. -/
def pendingColor : String :=
  "bg-yellow-100 text-yellow-800 dark:bg-yellow-900/20 dark:text-yellow-300"

/-- `getStatusBadge` of the batch-call list page. -/
def getStatusBadge (status : String) : StatusBadge :=
  mkStatusBadge statusColors pendingColor status

end OutboundList

namespace OutboundDetail

/-- The `statusColors` object of `getStatusBadge` in the batch-call detail page
(`src/unnamed/part_000` lines 123-132): the list page's set plus `initiated`
and `voicemail`. -/
def statusColors : List (String × String) :=
  [("pending", "bg-yellow-100 text-yellow-800 dark:bg-yellow-900/20 dark:text-yellow-300"),
   ("initiated", "bg-blue-100 text-blue-800 dark:bg-blue-900/20 dark:text-blue-300"),
   ("in_progress", "bg-blue-100 text-blue-800 dark:bg-blue-900/20 dark:text-blue-300"),
   ("completed", "bg-green-100 text-green-800 dark:bg-green-900/20 dark:text-green-300"),
   ("failed", "bg-red-100 text-red-800 dark:bg-red-900/20 dark:text-red-300"),
   ("cancelled", "bg-gray-100 text-gray-800 dark:bg-gray-900/20 dark:text-gray-300"),
   ("voicemail", "bg-purple-100 text-purple-800 dark:bg-purple-900/20 dark:text-purple-300")]

/-- `statusColors.pending` of the detail page. -/
def pendingColor : String :=
  "bg-yellow-100 text-yellow-800 dark:bg-yellow-900/20 dark:text-yellow-300"

/-- `getStatusBadge` of the batch-call detail page. -/
def getStatusBadge (status : String) : StatusBadge :=
  mkStatusBadge statusColors pendingColor status

end OutboundDetail

/-- A concrete environment for witnesses: the retrieved payment intent has no
charge, the lookups find nothing, and the catalog holds the tool names the SDK
exposes for the three configured capability groups. -/
def sampleEnv : StripeEnv :=
  { retrievePaymentIntent := fun piid => { id := piid, latest_charge := none }
    refundsCreate := fun _ => { id := "re_1" }
    chargesList := fun _ _ => []
    findCustomerByIdentifier := fun _ => none
    findPaymentByIdentifier := fun _ => none
    capturePaymentIntent := fun piid _ => { id := piid, latest_charge := none }
    getTools := ["create_refund", "list_customers", "retrieve_payment_intent",
                 "list_payment_intents", "update_payment_intent"]
    handleToolCall := fun _ _ => "ok" }

/-- A concrete environment whose customer lookup knows `alice` (with two
charges) and `carol` (with none). -/
def lookupEnv : StripeEnv :=
  { sampleEnv with
    findCustomerByIdentifier := fun ident =>
      if ident == "alice" then some { id := "cus_alice" }
      else if ident == "carol" then some { id := "cus_carol" }
      else none
    chargesList := fun cust _ =>
      if cust == "cus_alice" then [{ id := "ch_alice_1" }, { id := "ch_alice_0" }] else [] }

/-- A refund parameter set carrying every identifier at once. -/
def pAllIds : Params :=
  { charge_id := some "ch_42", payment_intent_id := some "pi_7",
    customerIdentifier := some "alice", orderIdentifier := some "ord_9" }

/-- Only a payment-intent id, pointing at an intent with no charge. -/
def pIntentOnly : Params := { payment_intent_id := some "pi_nocharge" }

/-- Only an unknown customer identifier. -/
def pCustomerBob : Params := { customerIdentifier := some "bob" }

/-- Only a customer identifier resolving to a customer without charges. -/
def pCustomerCarol : Params := { customerIdentifier := some "carol" }

/-- Only a customer identifier resolving to a customer with two charges. -/
def pCustomerAlice : Params := { customerIdentifier := some "alice" }

/-- Only an order identifier whose payment lookup finds nothing. -/
def pOrderOnly : Params := { orderIdentifier := some "ord_404" }

/-- A capture parameter set with a numeric-string amount. -/
def pCaptureDecimal : Params :=
  { payment_intent_id := some "pi_cap", amount := some (.str "150.7") }

/-- A capture parameter set whose amount string does not parse as a number. -/
def pCaptureGarbage : Params :=
  { payment_intent_id := some "pi_cap", amount := some (.str "abc") }

/-- Claim C1: whenever the parameters carry a (non-empty, hence JS-truthy)
`charge_id`, `handleRefundRequest` performs exactly one capability call — a
refund created against precisely that charge — and succeeds, regardless of any
`payment_intent_id`, order identifier or customer identifier also present. -/
theorem refund_chargeId_precedence (env : StripeEnv) (p : Params)
    (h : truthy p.charge_id = true) :
    handleRefundRequest env p =
      ({ status := 200
         body := .result (.refundObj (env.refundsCreate (refundArgs p (p.charge_id.getD ""))))
         headers := corsHeaders },
       [.refundsCreate (refundArgs p (p.charge_id.getD ""))]) := by
  simp [handleRefundRequest, h]

/-- Witness for C1: with every identifier present, only charge `ch_42` is
refunded and no lookup or retrieval happens. -/
theorem refund_chargeId_precedence_witness :
    handleRefundRequest sampleEnv pAllIds =
      ({ status := 200, body := .result (.refundObj { id := "re_1" }), headers := corsHeaders },
       [.refundsCreate { charge := "ch_42", amount := none, reason := "requested_by_customer", metadata := [] }]) :=
  refund_chargeId_precedence sampleEnv pAllIds rfl

/-- Claim C2: with a truthy `payment_intent_id` as the only identifier and a
retrieved intent carrying no `latest_charge`, `handleRefundRequest` answers
HTTP 400 (InvalidState) and its trace holds only the intent retrieval — the
refund-creation capability is never invoked. -/
theorem refund_paymentIntent_noCharge (env : StripeEnv) (p : Params) (pid : String)
    (hcid : truthy p.charge_id = false)
    (hpid : p.payment_intent_id = some pid) (hne : pid ≠ "")
    (hcust : truthy p.customerIdentifier = false)
    (hord : truthy p.orderIdentifier = false)
    (hlc : (env.retrievePaymentIntent pid).latest_charge = none) :
    handleRefundRequest env p =
      ({ status := 400, body := .error "Payment intent has no charge to refund", headers := corsHeaders },
       [.retrievePaymentIntent pid]) := by
  have ht : truthy (some pid) = true := by simp [truthy, hne]
  simp [handleRefundRequest, hcid, hpid, ht, hlc, latestChargeTruthy]

/-- Witness for C2 at a concrete intent with no charge. -/
theorem refund_paymentIntent_noCharge_witness :
    handleRefundRequest sampleEnv pIntentOnly =
      ({ status := 400, body := .error "Payment intent has no charge to refund", headers := corsHeaders },
       [.retrievePaymentIntent "pi_nocharge"]) :=
  refund_paymentIntent_noCharge sampleEnv pIntentOnly "pi_nocharge"
    rfl rfl (by decide) rfl rfl rfl

/-- Claim C3: with a truthy `customerIdentifier` as the only identifier:
an unknown customer yields HTTP 404 after just the lookup; a known customer
with an empty charge list (requested with limit 10) yields HTTP 404; and a
known customer with charges gets a refund of the first listed charge. -/
theorem refund_customerIdentifier_resolution (env : StripeEnv) (p : Params) (cid : String)
    (hcid : truthy p.charge_id = false)
    (hpi : truthy p.payment_intent_id = false)
    (hord : truthy p.orderIdentifier = false)
    (hcust : p.customerIdentifier = some cid) (hne : cid ≠ "") :
    (env.findCustomerByIdentifier cid = none →
       handleRefundRequest env p =
         ({ status := 404, body := .error ("Customer not found: " ++ cid), headers := corsHeaders },
          [.findCustomerByIdentifier cid]))
  ∧ (∀ c, env.findCustomerByIdentifier cid = some c → env.chargesList c.id 10 = [] →
       handleRefundRequest env p =
         ({ status := 404, body := .error "No charges found for this customer", headers := corsHeaders },
          [.findCustomerByIdentifier cid, .chargesList c.id 10]))
  ∧ (∀ c ch rest, env.findCustomerByIdentifier cid = some c →
       env.chargesList c.id 10 = ch :: rest →
       handleRefundRequest env p =
         ({ status := 200
            body := .resultWithMessage (.refundObj (env.refundsCreate (refundArgs p ch.id)))
              ("Refund processed for customer " ++ c.id ++ " on charge " ++ ch.id)
            headers := corsHeaders },
          [.findCustomerByIdentifier cid, .chargesList c.id 10, .refundsCreate (refundArgs p ch.id)])) := by
  have ht : truthy (some cid) = true := by simp [truthy, hne]
  refine ⟨?_, ?_, ?_⟩
  · intro hf
    simp [handleRefundRequest, hcid, hpi, hord, ht, hcust, hf]
  · intro c hf hch
    simp [handleRefundRequest, hcid, hpi, hord, ht, hcust, hf, hch]
  · intro c ch rest hf hch
    simp [handleRefundRequest, hcid, hpi, hord, ht, hcust, hf, hch]

/-- Witness for C3: all three outcomes at concrete customers of `lookupEnv`. -/
theorem refund_customerIdentifier_resolution_witness :
    handleRefundRequest lookupEnv pCustomerBob =
      ({ status := 404, body := .error "Customer not found: bob", headers := corsHeaders },
       [.findCustomerByIdentifier "bob"]) ∧
    handleRefundRequest lookupEnv pCustomerCarol =
      ({ status := 404, body := .error "No charges found for this customer", headers := corsHeaders },
       [.findCustomerByIdentifier "carol", .chargesList "cus_carol" 10]) ∧
    handleRefundRequest lookupEnv pCustomerAlice =
      ({ status := 200
         body := .resultWithMessage (.refundObj { id := "re_1" })
           "Refund processed for customer cus_alice on charge ch_alice_1"
         headers := corsHeaders },
       [.findCustomerByIdentifier "alice", .chargesList "cus_alice" 10,
        .refundsCreate { charge := "ch_alice_1", amount := none, reason := "requested_by_customer", metadata := [] }]) :=
  ⟨(refund_customerIdentifier_resolution lookupEnv pCustomerBob "bob"
      rfl rfl rfl rfl (by decide)).1 rfl,
   (refund_customerIdentifier_resolution lookupEnv pCustomerCarol "carol"
      rfl rfl rfl rfl (by decide)).2.1 { id := "cus_carol" } rfl rfl,
   (refund_customerIdentifier_resolution lookupEnv pCustomerAlice "alice"
      rfl rfl rfl rfl (by decide)).2.2 { id := "cus_alice" } { id := "ch_alice_1" }
      [{ id := "ch_alice_0" }] rfl rfl⟩

/-- Claim C4: with no truthy identifier field at all, `handleRefundRequest`
answers HTTP 400 with the message listing the accepted identifier fields, and
its trace is empty — no lookup, no refund, no charge list. -/
theorem refund_noIdentifier_invalidInput (env : StripeEnv) (p : Params)
    (h1 : truthy p.charge_id = false) (h2 : truthy p.payment_intent_id = false)
    (h3 : truthy p.customerIdentifier = false) (h4 : truthy p.orderIdentifier = false) :
    handleRefundRequest env p =
      ({ status := 400
         body := .error "Please provide either charge_id, payment_intent_id, customerIdentifier, or orderIdentifier"
         headers := corsHeaders },
       []) := by
  simp [handleRefundRequest, h1, h2, h3, h4, refundInvalidInputResponse]

/-- Witness for C4 at the empty parameter object. -/
theorem refund_noIdentifier_invalidInput_witness :
    handleRefundRequest sampleEnv {} =
      ({ status := 400
         body := .error "Please provide either charge_id, payment_intent_id, customerIdentifier, or orderIdentifier"
         headers := corsHeaders },
       []) :=
  refund_noIdentifier_invalidInput sampleEnv {} rfl rfl rfl rfl

/-- Claim C10: with a truthy `orderIdentifier` as the only identifier and a
payment lookup returning null, `handleRefundRequest` falls through to the same
invalid-input HTTP 400 response as when no identifier is supplied (not a 404),
after the one lookup call. -/
theorem refund_orderLookupNull_fallsThrough (env : StripeEnv) (p : Params) (oid : String)
    (h1 : truthy p.charge_id = false) (h2 : truthy p.payment_intent_id = false)
    (h3 : truthy p.customerIdentifier = false)
    (hord : p.orderIdentifier = some oid) (hne : oid ≠ "")
    (hfind : env.findPaymentByIdentifier oid = none) :
    handleRefundRequest env p =
      ({ status := 400
         body := .error "Please provide either charge_id, payment_intent_id, customerIdentifier, or orderIdentifier"
         headers := corsHeaders },
       [.findPaymentByIdentifier oid]) := by
  have ht : truthy (some oid) = true := by simp [truthy, hne]
  simp [handleRefundRequest, h1, h2, h3, hord, ht, hfind, refundInvalidInputResponse]

/-- Witness for C10 at a concrete unmatched order identifier. -/
theorem refund_orderLookupNull_fallsThrough_witness :
    handleRefundRequest sampleEnv pOrderOnly =
      ({ status := 400
         body := .error "Please provide either charge_id, payment_intent_id, customerIdentifier, or orderIdentifier"
         headers := corsHeaders },
       [.findPaymentByIdentifier "ord_404"]) :=
  refund_orderLookupNull_fallsThrough sampleEnv pOrderOnly "ord_404"
    rfl rfl rfl rfl (by decide) rfl

/-- Counterexample to claim C5 as stated: `"refund_capture"` contains
`"capture"`, is not a known capture alias, and the catalog holds no
capture-containing tool name, yet the dispatcher routes it to the refund
handler (the `includes("refund")` fallback is checked first), not to the
capture handler. -/
theorem dispatch_capture_substring_counterexample :
    strIncludes "refund_capture" "capture" = true ∧
    isCaptureToolName "refund_capture" = false ∧
    sampleEnv.getTools.all (fun t => !(strIncludes t "capture")) = true ∧
    POST sampleEnv (some "sk_test") (some "refund_capture") {} =
      handleRefundRequest sampleEnv {} ∧
    POST sampleEnv (some "sk_test") (some "refund_capture") {} ≠
      handleCaptureRequest sampleEnv {} := by
  exact ⟨by decide, by decide, by decide, by decide, by decide⟩

/-- Claim C5 as amended: a tool name containing `"capture"` but NOT containing
`"refund"` (the refund substring fallback is checked first), under a configured
secret key and a catalog none of whose tool names contains `"capture"`, is
dispatched to the capture handler rather than executed from the catalog. -/
theorem dispatch_capture_substring_fallback (env : StripeEnv) (key name : String) (p : Params)
    (hkey : key ≠ "")
    (hcap : strIncludes name "capture" = true)
    (hnr : strIncludes name "refund" = false)
    (htools : ∀ t ∈ env.getTools, strIncludes t "capture" = false) :
    POST env (some key) (some name) p = handleCaptureRequest env p := by
  have hne : name ≠ "" := by
    intro h
    rw [h] at hcap
    exact absurd hcap (by decide)
  have hkt : truthy (some key) = true := by simp [truthy, hkey]
  have hnt : truthy (some name) = true := by simp [truthy, hne]
  have hrf : isRefundToolName name = false := by
    have f1 : name ≠ "refunds_create" := by rintro rfl; exact absurd hnr (by decide)
    have f2 : name ≠ "create_refund" := by rintro rfl; exact absurd hnr (by decide)
    have f3 : name ≠ "stripe_refunds_create" := by rintro rfl; exact absurd hnr (by decide)
    simp [isRefundToolName, f1, f2, f3]
  have hmem : name ∉ env.getTools := by
    intro hm
    have hx := htools name hm
    rw [hcap] at hx
    exact absurd hx (by decide)
  rcases Bool.eq_false_or_eq_true (isCaptureToolName name) with hct | hct
  · simp [POST, hkt, hnt, hrf, hct, hmem, hnr, hcap]
  · simp [POST, hkt, hnt, hrf, hct, hmem, hnr, hcap]

/-- Witness for amended C5 at the non-alias name `my_capture_tool`. -/
theorem dispatch_capture_substring_fallback_witness :
    strIncludes "my_capture_tool" "capture" = true ∧
    POST sampleEnv (some "sk_test") (some "my_capture_tool") {} =
      handleCaptureRequest sampleEnv {} :=
  ⟨by decide,
   dispatch_capture_substring_fallback sampleEnv "sk_test" "my_capture_tool" {}
     (by decide) (by decide) (by decide) (by decide)⟩

/-- Claim C6 fails on the code: the unknown-tool 404 path of `POST` (route.ts
lines 77-80) builds its response without `corsHeaders`, so that failure
response carries no cross-origin headers, while every other path attaches
them. -/
theorem post_unknownTool_404_lacks_cors :
    POST sampleEnv (some "sk_test") (some "products_list") {} =
      ({ status := 404, body := .error "Tool products_list not found", headers := [] }, []) ∧
    corsHeaders ≠ [] := by
  exact ⟨by decide, by decide⟩

/-- Claim C7: a `paymentIntents_capture` request with amount string `"150.7"`
captures the given intent with `amount_to_capture = 151` (the amount rounded),
while an amount string that does not parse as a number is silently dropped,
yielding a successful full capture with no amount. -/
theorem capture_amount_rounding (env : StripeEnv) (key : String) (p : Params) (pid : String)
    (hkey : key ≠ "")
    (hpid : p.payment_intent_id = some pid) (hne : pid ≠ "") :
    (p.amount = some (JsAmount.str "150.7") →
       POST env (some key) (some "paymentIntents_capture") p =
         ({ status := 200
            body := .result (.intent (env.capturePaymentIntent pid (some 151)))
            headers := corsHeaders },
          [.capturePaymentIntent pid (some 151)]))
  ∧ (∀ s, jsParseNumber s = none → p.amount = some (JsAmount.str s) →
       POST env (some key) (some "paymentIntents_capture") p =
         ({ status := 200
            body := .result (.intent (env.capturePaymentIntent pid none))
            headers := corsHeaders },
          [.capturePaymentIntent pid none])) := by
  have hkt : truthy (some key) = true := by simp [truthy, hkey]
  have hpt : truthy (some pid) = true := by simp [truthy, hne]
  have h1 : isRefundToolName "paymentIntents_capture" = false := by decide
  have h2 : isCaptureToolName "paymentIntents_capture" = true := by decide
  have h3 : truthy (some "paymentIntents_capture") = true := by decide
  have hdisp : POST env (some key) (some "paymentIntents_capture") p =
      handleCaptureRequest env p := by
    simp [POST, hkt, h3, h1, h2]
  constructor
  · intro hamt
    rw [hdisp]
    have ha : amountToCapture p.amount = some 151 := by rw [hamt]; decide
    simp [handleCaptureRequest, jsOrOpt, hpid, hpt, ha]
  · intro s hs hamt
    rw [hdisp]
    have hsne : s ≠ "" := by
      intro h
      rw [h] at hs
      exact absurd hs (by decide)
    have ha : amountToCapture p.amount = none := by
      rw [hamt]
      simp [amountToCapture, hsne, hs]
    simp [handleCaptureRequest, jsOrOpt, hpid, hpt, ha]

/-- Witness for C7: the rounded partial capture of 151 and the dropped
unparsable amount at concrete inputs. -/
theorem capture_amount_rounding_witness :
    POST sampleEnv (some "sk_test") (some "paymentIntents_capture") pCaptureDecimal =
      ({ status := 200
         body := .result (.intent { id := "pi_cap", latest_charge := none })
         headers := corsHeaders },
       [.capturePaymentIntent "pi_cap" (some 151)]) ∧
    jsParseNumber "abc" = none ∧
    POST sampleEnv (some "sk_test") (some "paymentIntents_capture") pCaptureGarbage =
      ({ status := 200
         body := .result (.intent { id := "pi_cap", latest_charge := none })
         headers := corsHeaders },
       [.capturePaymentIntent "pi_cap" none]) :=
  ⟨(capture_amount_rounding sampleEnv "sk_test" pCaptureDecimal "pi_cap"
      (by decide) rfl (by decide)).1 rfl,
   by decide,
   (capture_amount_rounding sampleEnv "sk_test" pCaptureGarbage "pi_cap"
      (by decide) rfl (by decide)).2 "abc" (by decide) rfl⟩

/-- Claim C8: `handleCaptureRequest` takes the payment-intent id from the first
JS-truthy field among `payment_intent_id`, `paymentIntentId`, `intent_id`,
`id`, in that order; when none of the four is truthy it answers HTTP 400
without calling the capture capability. -/
theorem capture_paymentIntentId_aliases (env : StripeEnv) (p : Params) :
    (∀ v, p.payment_intent_id = some v → v ≠ "" →
       handleCaptureRequest env p =
         ({ status := 200
            body := .result (.intent (env.capturePaymentIntent v (amountToCapture p.amount)))
            headers := corsHeaders },
          [.capturePaymentIntent v (amountToCapture p.amount)]))
  ∧ (truthy p.payment_intent_id = false → ∀ v, p.paymentIntentId = some v → v ≠ "" →
       handleCaptureRequest env p =
         ({ status := 200
            body := .result (.intent (env.capturePaymentIntent v (amountToCapture p.amount)))
            headers := corsHeaders },
          [.capturePaymentIntent v (amountToCapture p.amount)]))
  ∧ (truthy p.payment_intent_id = false → truthy p.paymentIntentId = false →
       ∀ v, p.intent_id = some v → v ≠ "" →
       handleCaptureRequest env p =
         ({ status := 200
            body := .result (.intent (env.capturePaymentIntent v (amountToCapture p.amount)))
            headers := corsHeaders },
          [.capturePaymentIntent v (amountToCapture p.amount)]))
  ∧ (truthy p.payment_intent_id = false → truthy p.paymentIntentId = false →
       truthy p.intent_id = false → ∀ v, p.id = some v → v ≠ "" →
       handleCaptureRequest env p =
         ({ status := 200
            body := .result (.intent (env.capturePaymentIntent v (amountToCapture p.amount)))
            headers := corsHeaders },
          [.capturePaymentIntent v (amountToCapture p.amount)]))
  ∧ (truthy p.payment_intent_id = false → truthy p.paymentIntentId = false →
       truthy p.intent_id = false → truthy p.id = false →
       handleCaptureRequest env p =
         ({ status := 400
            body := .error "payment_intent_id is required to capture a payment"
            headers := corsHeaders },
          [])) := by
  refine ⟨?_, ?_, ?_, ?_, ?_⟩
  · intro v hv hne
    have ht : truthy (some v) = true := by simp [truthy, hne]
    simp [handleCaptureRequest, jsOrOpt, hv, ht]
  · intro h1 v hv hne
    have ht : truthy (some v) = true := by simp [truthy, hne]
    simp [handleCaptureRequest, jsOrOpt, h1, hv, ht]
  · intro h1 h2 v hv hne
    have ht : truthy (some v) = true := by simp [truthy, hne]
    simp [handleCaptureRequest, jsOrOpt, h1, h2, hv, ht]
  · intro h1 h2 h3 v hv hne
    have ht : truthy (some v) = true := by simp [truthy, hne]
    simp [handleCaptureRequest, jsOrOpt, h1, h2, h3, hv, ht]
  · intro h1 h2 h3 h4
    simp [handleCaptureRequest, jsOrOpt, h1, h2, h3, h4]

/-- Witness for C8: each alias picked in order (a later alias set alongside to
show precedence), and the no-alias 400. -/
theorem capture_paymentIntentId_aliases_witness :
    handleCaptureRequest sampleEnv { payment_intent_id := some "pi_a", id := some "pi_z" } =
      ({ status := 200
         body := .result (.intent { id := "pi_a", latest_charge := none })
         headers := corsHeaders },
       [.capturePaymentIntent "pi_a" none]) ∧
    handleCaptureRequest sampleEnv { paymentIntentId := some "pi_b", intent_id := some "pi_z" } =
      ({ status := 200
         body := .result (.intent { id := "pi_b", latest_charge := none })
         headers := corsHeaders },
       [.capturePaymentIntent "pi_b" none]) ∧
    handleCaptureRequest sampleEnv { intent_id := some "pi_c", id := some "pi_z" } =
      ({ status := 200
         body := .result (.intent { id := "pi_c", latest_charge := none })
         headers := corsHeaders },
       [.capturePaymentIntent "pi_c" none]) ∧
    handleCaptureRequest sampleEnv { id := some "pi_d" } =
      ({ status := 200
         body := .result (.intent { id := "pi_d", latest_charge := none })
         headers := corsHeaders },
       [.capturePaymentIntent "pi_d" none]) ∧
    handleCaptureRequest sampleEnv {} =
      ({ status := 400
         body := .error "payment_intent_id is required to capture a payment"
         headers := corsHeaders },
       []) :=
  ⟨(capture_paymentIntentId_aliases sampleEnv
      { payment_intent_id := some "pi_a", id := some "pi_z" }).1 "pi_a" rfl (by decide),
   (capture_paymentIntentId_aliases sampleEnv
      { paymentIntentId := some "pi_b", intent_id := some "pi_z" }).2.1 rfl "pi_b" rfl (by decide),
   (capture_paymentIntentId_aliases sampleEnv
      { intent_id := some "pi_c", id := some "pi_z" }).2.2.1 rfl rfl "pi_c" rfl (by decide),
   (capture_paymentIntentId_aliases sampleEnv
      { id := some "pi_d" }).2.2.2.1 rfl rfl rfl "pi_d" rfl (by decide),
   (capture_paymentIntentId_aliases sampleEnv {}).2.2.2.2 rfl rfl rfl rfl⟩

/-- A key absent from an object's key list looks up to `undefined`. -/
lemma jsLookup_eq_none (obj : List (String × String)) (key : String)
    (h : key ∉ obj.map Prod.fst) : jsLookup obj key = none := by
  have hf : obj.find? (fun kv => kv.1 == key) = none := by
    rw [List.find?_eq_none]
    intro kv hkv hbeq
    exact h (List.mem_map.mpr ⟨kv, hkv, by simpa using hbeq⟩)
  simp [jsLookup, hf]

/-- Claim C9: for any status string outside the known key set of either page,
`getStatusBadge` (a total function in both pages' embeddings) renders the
badge with the `pending` style class. -/
theorem getStatusBadge_unknown_pending (s : String)
    (hl : s ∉ OutboundList.statusColors.map Prod.fst)
    (hd : s ∉ OutboundDetail.statusColors.map Prod.fst) :
    (OutboundList.getStatusBadge s).className =
      "inline-flex items-center rounded-full px-2 py-1 text-xs font-medium " ++
        OutboundList.pendingColor ∧
    (OutboundDetail.getStatusBadge s).className =
      "inline-flex items-center rounded-full px-2 py-1 text-xs font-medium " ++
        OutboundDetail.pendingColor := by
  constructor
  · simp [OutboundList.getStatusBadge, mkStatusBadge, jsLookup_eq_none _ _ hl]
  · simp [OutboundDetail.getStatusBadge, mkStatusBadge, jsLookup_eq_none _ _ hd]

/-- Witness for C9 at the unknown status `mystery_state`. -/
theorem getStatusBadge_unknown_pending_witness :
    (OutboundList.getStatusBadge "mystery_state").className =
      "inline-flex items-center rounded-full px-2 py-1 text-xs font-medium " ++
        OutboundList.pendingColor ∧
    (OutboundDetail.getStatusBadge "mystery_state").className =
      "inline-flex items-center rounded-full px-2 py-1 text-xs font-medium " ++
        OutboundDetail.pendingColor :=
  getStatusBadge_unknown_pending "mystery_state" (by decide) (by decide)

end SupportFlow
